import Mathlib

/-!
Verification development for the Razeedash-api channel resolvers
(`src/app/apollo/resolvers/channel.js`).

The resolvers are shallowly embedded: MongoDB collections become lists of
records inside a `DB` structure, each resolver becomes a pure Lean function
from a `World` (database plus object store) and its GraphQL arguments to an
`Except`-style result, and every database/object-store write is recorded as
one entry in an explicit trace of intermediate `World`s, so that properties
about crash windows between sequential writes can be stated.

External collaborators that are not part of the repository source
(`resolvers/common.js` error classes and `validAuth`, the content cipher in
`utils/orgs.js`, the s3 client, the yaml parser, uuid/iv generation) are
modelled from the spec as small abstract components; each such definition
carries a doc comment saying so.  JavaScript truthiness of optional string
arguments is modelled by `strTruthy`.
-/

namespace Razee

/-! ## Data model -/

/-- A version summary entry inside `channel.versions` (the denormalized index). -/
structure VersionSummary where
  uuid : String
  name : String
  description : String
  location : String
  created : Nat
deriving Repr, DecidableEq

/-- A document of the `Channel` collection. -/
structure Channel where
  uuid : String
  org_id : String
  name : String
  tags : List String
  versions : List VersionSummary
deriving Repr, DecidableEq

/-- A document of the `DeployableVersion` collection (the authoritative
version record).  The source field `type` is called `vtype` here. -/
structure DeployableVersion where
  org_id : String
  uuid : String
  channel_id : String
  channelName : String
  name : String
  description : String
  location : String
  content : String
  iv : String
  vtype : String
  created : Nat
deriving Repr, DecidableEq

/-- A document of the `Subscription` collection (only the fields the channel
resolvers touch). -/
structure Subscription where
  org_id : String
  channel_uuid : String
  version_uuid : String
  channelName : String
deriving Repr, DecidableEq

/-- A document of the `Organization` collection; `idStr` is the mongo `_id`
and `orgKeys` the ordered key list (first = current). -/
structure Organization where
  idStr : String
  orgKeys : List String
deriving Repr, DecidableEq

/-- The mongo database: one list per collection used by the resolvers. -/
structure DB where
  organizations : List Organization
  channels : List Channel
  deployableVersions : List DeployableVersion
  subscriptions : List Subscription
deriving Repr, DecidableEq

/-- One object held by the object store, addressed by bucket and path. -/
structure S3Object where
  bucket : String
  path : String
  data : String
deriving Repr, DecidableEq

/-- Full system state: database plus object store contents. -/
structure World where
  db : DB
  s3 : List S3Object
deriving Repr, DecidableEq

/-- The `conf.s3` section of `app/conf.js`: a configured `endpoint` selects
the object-store backend for new writes. -/
structure S3Conf where
  endpoint : Option String
  channelBucket : String
deriving Repr, DecidableEq

/-- System configuration (`conf`), as read by the resolvers. -/
structure Conf where
  s3 : S3Conf
deriving Repr, DecidableEq

/-- Modelled from the spec: the limit constants of `app/apollo/models/const.js`
(not under src/).  `verMaxTotal` is `CHANNEL_VERSION_LIMITS.MAX_TOTAL` and
`yamlMaxSizeMB` is `CHANNEL_VERSION_YAML_MAX_SIZE_LIMIT_MB`; their numeric
values are kept abstract, as the claims are stated symbolically in them. -/
structure Limits where
  verMaxTotal : Nat
  yamlMaxSizeMB : Nat
deriving Repr, DecidableEq

/-- Modelled from the spec: the environment of external effects a resolver
invocation consumes — the Authorization Gateway verdict per action
(`authOk`), the yaml parser verdict (`yamlOk`), the object-store delete
outcome per object key (`s3DeleteOk`), and the generated uuids, iv text,
timestamp and owner metadata. -/
structure Env where
  authOk : String → Bool
  yamlOk : String → Bool
  s3DeleteOk : String → Bool
  newId : String
  newUuid : String
  ivText : String
  now : Nat
  kubeOwnerName : String
  ownerId : String

/-! ## Generic helpers -/

/-- JavaScript truthiness of an optional string argument: `undefined`/`null`
and the empty string are falsy. -/
def strTruthy : Option String → Bool
  | none => false
  | some s => !s.isEmpty

/-- String interpolation of a possibly-undefined argument, as JS template
interpolation renders `undefined`. -/
def optStr (o : Option String) : String := o.getD "undefined"

/-- Embeds `collection.updateOne(filter, update)`: apply `f` to the first element
matching `p`. -/
def updateFirst (p : α → Bool) (f : α → α) : List α → List α
  | [] => []
  | x :: xs => if p x then f x :: xs else x :: updateFirst p f xs

/-- Embeds `collection.deleteOne(filter)`: remove the first element matching `p`. -/
def deleteFirst (p : α → Bool) : List α → List α
  | [] => []
  | x :: xs => if p x then xs else x :: deleteFirst p xs

/-! ## Errors -/

/-- The errors a resolver can surface.  `notFound`, `validation`,
`authorization`, `queryError` and `basic` embed the typed error classes of
`resolvers/common.js`; `referenceError` is a raw JavaScript
`ReferenceError`; `externalError` is a failure raised by an external client
such as the object store. -/
inductive RazeeErr where
  | notFound (msg : String)
  | validation (msg : String)
  | authorization (msg : String)
  | queryError (msg : String)
  | basic (msg : String)
  | referenceError (name : String)
  | externalError (msg : String)
deriving Repr, DecidableEq

/-- Modelled from the spec: the error class hierarchy of
`resolvers/common.js` (not under src/).  The typed domain errors —
NotFoundError, RazeeValidationError, the authorization failure,
RazeeQueryError and BasicRazeeError itself — all extend `BasicRazeeError`;
a raw JavaScript error (ReferenceError, an external client failure) does
not. -/
def RazeeErr.isBasicRazeeError : RazeeErr → Bool
  | .notFound _ => true
  | .validation _ => true
  | .authorization _ => true
  | .queryError _ => true
  | .basic _ => true
  | .referenceError _ => false
  | .externalError _ => false

/-- Modelled from the spec: `validAuth` of `resolvers/common.js` (not under
src/), the external Authorization Gateway call: succeeds when the actor
holds the capability for `action`, otherwise raises a typed authorization
error. -/
def validAuth (env : Env) (action : String) : Except RazeeErr Unit :=
  if env.authOk action then .ok () else .error (.authorization ("not allowed to " ++ action))

/-! ## Error message texts

Abbreviated renderings of the i18n templates in the source; each keeps the
identifying parts of the original text. -/

def queryErrorMsg (queryName : String) : String :=
  "Query " ++ queryName ++ " error."

def orgNotFoundMsg (org_id : String) : String :=
  "Could not find the organization with ID " ++ org_id ++ "."

def summaryNotFoundMsg (versionUuid : Option String) (chName chUuid : String) : String :=
  "versionObj " ++ optStr versionUuid ++ " is not found for " ++ chName ++ ":" ++ chUuid

def recordNotFoundMsg (chName chUuid voName voUuid : String) : String :=
  "DeployableVersion is not found for " ++ chName ++ ":" ++ chUuid ++ "/" ++ voName ++ ":" ++ voUuid ++ "."

def notImplementedMsg (loc : String) : String :=
  "versionObj.location=" ++ loc ++ " not implemented yet"

def nameRequiredMsg : String := "A name must be specified"

def typeRequiredMsg : String := "A type of application/yaml must be specified"

def channelUuidRequiredMsg : String := "A channel_uuid must be specified"

def fileOrContentRequiredMsg : String := "A file or content must be specified"

def channelNotFoundMsg (uuid : String) : String :=
  "channel uuid " ++ uuid ++ " not found"

def versionNameExistsMsg (name : String) : String :=
  "The version name " ++ name ++ " already exists"

def tooManyVersionsMsg (channel_uuid : String) : String :=
  "Too many channel version are registered under " ++ channel_uuid ++ "."

def yamlSizeMsg : String := "YAML file size limit exceeded"

def yamlInvalidMsg : String := "Provided YAML content is not valid"

def versionUuidNotFoundMsg (uuid : String) : String :=
  "version uuid " ++ uuid ++ " not found"

def subsDependChannelMsg (n : Nat) : String :=
  toString n ++ " subscription(s) depend on this channel."

def subsDependVersionMsg (n : Nat) : String :=
  toString n ++ " subscriptions depend on this channel version."

/-- The missing-summary message of `removeChannelVersion`; the source template
also references the channel uuid but only the version uuid and channel name
are passed to the interpolator. -/
def removeVerObjNotFoundMsg (uuid chName : String) : String :=
  "versionObj " ++ uuid ++ " is not found for " ++ chName ++ ":"

/-! ## Content cipher and object store

External leaf components (the cipher lives in `utils/orgs.js`, the client in
`s3/s3Client.js`, both outside src/). -/

/-- Modelled from the spec: `encryptOrgData` of `utils/orgs.js` — symmetric
encryption with the organization key, abstracted as an injective tagger. -/
def encryptOrgData (key content : String) : String :=
  "encO:" ++ key ++ ":" ++ content

/-- Modelled from the spec: `decryptOrgData` of `utils/orgs.js` — symmetric
decryption with the organization key, abstracted as a tagger. -/
def decryptOrgData (key data : String) : String :=
  "decO:" ++ key ++ ":" ++ data

/-- Modelled from the spec: the s3 client's decrypt-on-read with an explicit
initialization vector, abstracted as a tagger. -/
def decryptWithIv (key iv data : String) : String :=
  "decIv:" ++ key ++ ":" ++ iv ++ ":" ++ data

/-- Modelled from the spec: the s3 client's encrypt-on-write with an explicit
initialization vector, abstracted as a tagger. -/
def encryptWithIv (key iv content : String) : String :=
  "encIv:" ++ key ++ ":" ++ iv ++ ":" ++ content

/-- Splitting a character list at every slash, like the lodash
`_.split(fullPath, '/')` of the source. -/
def splitSlashes : List Char → List (List Char)
  | [] => [[]]
  | c :: rest =>
    if c = '/' then [] :: splitSlashes rest
    else
      match splitSlashes rest with
      | [] => [[c]]
      | a :: as => (c :: a) :: as

/-- The characters after the first `://`, when the input has one. -/
def afterScheme : List Char → Option (List Char)
  | ':' :: '/' :: '/' :: rest => some rest
  | _ :: rest => afterScheme rest
  | [] => none

/-- Drop the host part: everything up to (but not including) the first
slash. -/
def dropHost : List Char → List Char
  | [] => []
  | c :: rest => if c = '/' then c :: rest else dropHost rest

/-- Embeds `new URL(url).pathname` for the `scheme://host/p1/p2` locators the store
writes: the first slash after the host and everything following it. -/
def urlPathname (url : String) : String :=
  match afterScheme url.toList with
  | some rest => String.mk (dropHost rest)
  | none => url

/-- The bucket/path split both `deleteDeployableVersionFromS3` and the s3
read path perform on a stored locator: take the pathname, split on slashes,
drop empty segments, shift the bucket name, rejoin the rest. -/
def s3PartsOfUrl (url : String) : String × String :=
  let fullPath := urlPathname url
  let parts := ((splitSlashes fullPath.toList).filter (fun p => !p.isEmpty)).map String.mk
  match parts with
  | [] => ("", "")
  | b :: rest => (b, String.intercalate "/" rest)

/-- JavaScript `decodeURIComponent`; the identity on the escape-free paths
the store derives, which is all the resolvers produce. -/
def decodeURIComponent (s : String) : String := s

/-- The object key `bucket/path` identifying one stored object. -/
def s3Key (bucket path : String) : String := bucket ++ "/" ++ path

/-- The object key a version record's stored locator points at. -/
def dvS3Key (dv : DeployableVersion) : String :=
  s3Key (s3PartsOfUrl dv.content).1 (s3PartsOfUrl dv.content).2

/-- Modelled from the spec: `s3Client.deleteObject` — removes the addressed
object, or fails when the environment says the external call fails.  The
client's connection parameters (taken from `conf` in the source) are
abstracted into the environment. -/
def s3DeleteObject (env : Env) (w : World) (bucket path : String) : Except RazeeErr World :=
  if env.s3DeleteOk (s3Key bucket path) then
    .ok { w with s3 := w.s3.filter (fun o => !(o.bucket == bucket && o.path == path)) }
  else
    .error (.externalError ("s3 delete failed: " ++ s3Key bucket path))

/-- Embeds `deleteDeployableVersionFromS3` (channel.js top level): parse the
record's stored locator into bucket and path, then delete that object. -/
def deleteDeployableVersionFromS3 (_conf : Conf) (env : Env) (w : World)
    (deployableVersionObj : DeployableVersion) : Except RazeeErr World :=
  let bucketName := (s3PartsOfUrl deployableVersionObj.content).1
  let path := (s3PartsOfUrl deployableVersionObj.content).2
  s3DeleteObject env w bucketName path

/-- Modelled from the spec: `s3Client.getAndDecryptFile` — fetch the bytes at
bucket/path and decrypt them with the key and iv; fails when the object is
missing. -/
def s3GetAndDecryptFile (w : World) (bucket path key iv : String) : Except RazeeErr String :=
  match w.s3.find? (fun o => o.bucket == bucket && o.path == path) with
  | some o => .ok (decryptWithIv key iv o.data)
  | none => .error (.externalError ("s3 object missing: " ++ s3Key bucket path))

/-! ## Resolver outcome with write trace -/

/-- The outcome of a mutation: its result and the ordered trace of `World`s
it passed through — the initial state first, then the state after each
sequential database or object-store write. -/
structure OpOut (α : Type) where
  result : Except RazeeErr α
  states : List World
deriving Repr

/-- The `catch` block shared by the mutations: rethrow a `BasicRazeeError`
unmodified, wrap anything else into `RazeeQueryError`. -/
def catchBasic (queryName : String) (r : Except RazeeErr α) : Except RazeeErr α :=
  match r with
  | .ok a => .ok a
  | .error e =>
    if e.isBasicRazeeError then .error e
    else .error (.queryError (queryErrorMsg queryName))

/-- The `catchBasic` wrapper lifted over a traced outcome. -/
def catchBasicOut (queryName : String) (o : OpOut α) : OpOut α :=
  { o with result := catchBasic queryName o.result }

/-- The `catch` block of the `channelVersion` query: wrap every error —
typed domain errors included — into `RazeeQueryError`. -/
def catchAllQuery (queryName : String) (r : Except RazeeErr α) : Except RazeeErr α :=
  match r with
  | .ok a => .ok a
  | .error _ => .error (.queryError (queryErrorMsg queryName))

/-! ## Query.channelVersion -/

/-- The backend dispatch of the read path (channel.js lines 166-182): branch
on the version summary's `location` tag.  `mongo` decrypts the record's
inline content; `s3` parses the record's stored locator and fetches and
decrypts the object; any other tag raises `BasicRazeeError`. -/
def readContentByLocation (w : World) (orgKey loc : String) (dv : DeployableVersion) :
    Except RazeeErr String :=
  if loc == "mongo" then
    .ok (decryptOrgData orgKey dv.content)
  else if loc == "s3" then
    let bucketName := (s3PartsOfUrl dv.content).1
    let path := (s3PartsOfUrl dv.content).2
    s3GetAndDecryptFile w bucketName (decodeURIComponent path) orgKey dv.iv
  else
    .error (.basic (notImplementedMsg loc))

/-- The body of the `try` block of `Query.channelVersion` (channel.js lines
136-183): organization lookup, channel lookup by name or uuid, auth check,
version summary lookup by uuid or name, authoritative record lookup, then
content retrieval dispatched on the summary's location.

When the channel is missing, the source builds the NotFoundError message
from the local `channel_uuid`, whose `const` declaration (line 151) has not
executed yet, so JavaScript raises `ReferenceError` there instead of the
intended NotFoundError. -/
def channelVersionTry (w : World) (_conf : Conf) (env : Env) (org_id : String)
    (channelUuid versionUuid channelName versionName : Option String) :
    Except RazeeErr DeployableVersion :=
  match w.db.organizations.find? (fun o => o.idStr == org_id) with
  | none => .error (.notFound (orgNotFoundMsg org_id))
  | some org =>
    let orgKey := org.orgKeys.head?.getD ""
    let chMatch : Channel → Bool := fun c =>
      if strTruthy channelName then channelName == some c.name && c.org_id == org_id
      else channelUuid == some c.uuid && c.org_id == org_id
    match w.db.channels.find? chMatch with
    | none => .error (.referenceError "channel_uuid")
    | some channel =>
      match validAuth env "READ" with
      | .error e => .error e
      | .ok _ =>
        let channel_uuid := channel.uuid
        match channel.versions.find? (fun v =>
            versionUuid == some v.uuid || versionName == some v.name) with
        | none => .error (.notFound (summaryNotFoundMsg versionUuid channel.name channel.uuid))
        | some versionObj =>
          let version_uuid := versionObj.uuid
          match w.db.deployableVersions.find? (fun d =>
              d.org_id == org_id && d.channel_id == channel_uuid && d.uuid == version_uuid) with
          | none =>
            .error (.notFound (recordNotFoundMsg channel.name channel.uuid versionObj.name versionObj.uuid))
          | some deployableVersionObj =>
            match readContentByLocation w orgKey versionObj.location deployableVersionObj with
            | .error e => .error e
            | .ok content => .ok { deployableVersionObj with content := content }

/-- Embeds `Query.channelVersion`: the `try` body surrounded by the catch-all
wrapper of lines 184-187. -/
def channelVersion (w : World) (conf : Conf) (env : Env) (org_id : String)
    (channelUuid versionUuid channelName versionName : Option String) :
    Except RazeeErr DeployableVersion :=
  catchAllQuery "channelVersion"
    (channelVersionTry w conf env org_id channelUuid versionUuid channelName versionName)

/-! ## Mutation.addChannelVersion -/

/-- The `type` argument check of `addChannelVersion` (line 278):
`!type || type !== 'yaml' && type !== 'application/yaml'`. -/
def typeInvalid (ctype : Option String) : Bool :=
  !strTruthy ctype || (ctype != some "yaml" && ctype != some "application/yaml")

/-- Embeds `Mutation.addChannelVersion` (channel.js lines 262-398).  Argument order
follows the source (`orgId, channelUuid, name, type, content, file,
description`); `file` is `some fc` when a file upload is supplied and `fc`
is the string its stream yields.  There is no overall try/catch in the
source: every error propagates to the caller as raised.  The trace records
the object-store upload (when the s3 backend is configured), the record
create, and the summary push, in the order the source awaits them;
`ensureBucketExists` is idempotent and changes no modelled state. -/
def addChannelVersion (w : World) (conf : Conf) (lim : Limits) (env : Env)
    (org_id : String) (channel_uuid name ctype content file : Option String)
    (description : String) : OpOut String :=
  match w.db.organizations.find? (fun o => o.idStr == org_id) with
  | none => ⟨.error (.notFound (orgNotFoundMsg org_id)), [w]⟩
  | some org =>
    let orgKey := org.orgKeys.head?.getD ""
    if !strTruthy name then ⟨.error (.validation nameRequiredMsg), [w]⟩
    else if typeInvalid ctype then ⟨.error (.validation typeRequiredMsg), [w]⟩
    else if !strTruthy channel_uuid then ⟨.error (.validation channelUuidRequiredMsg), [w]⟩
    else if !file.isSome && !strTruthy content then
      ⟨.error (.validation fileOrContentRequiredMsg), [w]⟩
    else
      match w.db.channels.find? (fun c => channel_uuid == some c.uuid && c.org_id == org_id) with
      | none => ⟨.error (.notFound (channelNotFoundMsg (optStr channel_uuid))), [w]⟩
      | some channel =>
        match validAuth env "MANAGEVERSION" with
        | .error e => ⟨.error e, [w]⟩
        | .ok _ =>
          let versions := w.db.deployableVersions.filter (fun d =>
            d.org_id == org_id && some d.channel_id == channel_uuid)
          let versionNameExists := versions.any (fun version => some version.name == name)
          if versionNameExists then
            ⟨.error (.validation (versionNameExistsMsg (optStr name))), [w]⟩
          else
            -- DeployableVersion.count with the same filter as the find above
            let total := versions.length
            if total ≥ lim.verMaxTotal then
              ⟨.error (.validation (tooManyVersionsMsg (optStr channel_uuid))), [w]⟩
            else
              -- if a file was supplied its streamed content replaces the argument
              let contentEff := file.getD (content.getD "")
              let yamlSize := contentEff.utf8ByteSize
              if yamlSize > lim.yamlMaxSizeMB * 1024 * 1024 then
                ⟨.error (.validation yamlSizeMsg), [w]⟩
              else if !env.yamlOk contentEff then
                ⟨.error (.validation yamlInvalidMsg), [w]⟩
              else
                let ivText := env.ivText
                -- backend selection by live configuration, for writes only
                let chosen : String × String × World :=
                  match conf.s3.endpoint with
                  | some ep =>
                    if ep.isEmpty then ("mongo", encryptOrgData orgKey contentEff, w)
                    else
                      let resourceName := org_id.toLower ++ "-" ++ channel.uuid ++ "-" ++ optStr name
                      let bucketName := conf.s3.channelBucket
                      let url := ep ++ "/" ++ bucketName ++ "/" ++ resourceName
                      ("s3", url,
                        { w with s3 := w.s3.filter (fun o =>
                            !(o.bucket == bucketName && o.path == resourceName)) ++
                          [⟨bucketName, resourceName, encryptWithIv orgKey ivText contentEff⟩] })
                  | none => ("mongo", encryptOrgData orgKey contentEff, w)
                let location := chosen.1
                let data := chosen.2.1
                let w1 := chosen.2.2
                let deployableVersionObj : DeployableVersion :=
                  { org_id := org_id, uuid := env.newUuid, channel_id := channel.uuid,
                    channelName := channel.name, name := optStr name,
                    description := description, location := location, content := data,
                    iv := ivText, vtype := optStr ctype, created := env.now }
                let w2 := { w1 with db := { w1.db with
                  deployableVersions := w1.db.deployableVersions ++ [deployableVersionObj] } }
                let versionObj : VersionSummary :=
                  { uuid := deployableVersionObj.uuid, name := optStr name,
                    description := description, location := location, created := env.now }
                let w3 := { w2 with db := { w2.db with
                  channels := updateFirst
                    (fun c => c.org_id == org_id && c.uuid == channel.uuid)
                    (fun c => { c with versions := c.versions ++ [versionObj] })
                    w2.db.channels } }
                ⟨.ok deployableVersionObj.uuid, [w, w1, w2, w3]⟩

/-! ## Mutation.editChannel -/

/-- The `try` body of `Mutation.editChannel` (channel.js lines 234-253):
look the channel up, authorize, set its name and tags, then set
`channelName` on every subscription of the organization referencing it. -/
def editChannelTry (w : World) (env : Env) (org_id uuid name : String) (tags : List String) :
    OpOut (String × String × List String) :=
  match w.db.channels.find? (fun c => c.uuid == uuid && c.org_id == org_id) with
  | none => ⟨.error (.notFound (channelNotFoundMsg uuid)), [w]⟩
  | some _channel =>
    match validAuth env "UPDATE" with
    | .error e => ⟨.error e, [w]⟩
    | .ok _ =>
      let w1 := { w with db := { w.db with
        channels := updateFirst (fun c => c.org_id == org_id && c.uuid == uuid)
          (fun c => { c with name := name, tags := tags }) w.db.channels } }
      let w2 := { w1 with db := { w1.db with
        subscriptions := w1.db.subscriptions.map (fun s =>
          if s.org_id == org_id && s.channel_uuid == uuid then { s with channelName := name }
          else s) } }
      ⟨.ok (uuid, name, tags), [w, w1, w2]⟩

/-- Embeds `Mutation.editChannel` with its catch block (lines 254-260). -/
def editChannel (w : World) (env : Env) (org_id uuid name : String) (tags : List String) :
    OpOut (String × String × List String) :=
  catchBasicOut "editChannel" (editChannelTry w env org_id uuid name tags)

/-! ## Mutation.removeChannel -/

/-- The concurrency ceiling the source passes to `pLimit` (line 420). -/
def pLimitBound : Nat := 5

/-- The `pLimit(bound)`-gated `Promise.all` over the s3 deletions of
`removeChannel` (lines 420-425).  The bound caps simultaneous connections to
the object store, an operational property with no effect on the
database-visible semantics modelled here, so the deletions are folded
sequentially: the first failing deletion rejects the whole batch and no
database write follows. -/
def boundedDeleteAll (_bound : Nat) (conf : Conf) (env : Env) (w : World) :
    List DeployableVersion → Except RazeeErr World
  | [] => .ok w
  | dv :: rest =>
    match deleteDeployableVersionFromS3 conf env w dv with
    | .error e => .error e
    | .ok w1 => boundedDeleteAll _bound conf env w1 rest

/-- The `try` body of `Mutation.removeChannel` (channel.js lines 404-436):
channel lookup, authorization, blocking-subscription check, bounded-fan-out
deletion of the s3-backed version payloads, then record deletion
(`deleteMany`) and finally channel deletion, in that order.  When an s3
deletion fails the rejected `Promise.all` throws before either database
deletion is awaited, so the trace holds only the initial state. -/
def removeChannelTry (w : World) (conf : Conf) (env : Env) (org_id uuid : String) : OpOut String :=
  match w.db.channels.find? (fun c => c.uuid == uuid && c.org_id == org_id) with
  | none => ⟨.error (.notFound (channelNotFoundMsg uuid)), [w]⟩
  | some channel =>
    match validAuth env "DELETE" with
    | .error e => ⟨.error e, [w]⟩
    | .ok _ =>
      let channel_uuid := channel.uuid
      let subCount := (w.db.subscriptions.filter (fun s =>
        s.org_id == org_id && s.channel_uuid == channel_uuid)).length
      if subCount > 0 then ⟨.error (.validation (subsDependChannelMsg subCount)), [w]⟩
      else
        let versionsToDeleteFromS3 := w.db.deployableVersions.filter (fun d =>
          d.org_id == org_id && d.channel_id == channel.uuid && d.location == "s3")
        match boundedDeleteAll pLimitBound conf env w versionsToDeleteFromS3 with
        | .error e => ⟨.error e, [w]⟩
        | .ok w1 =>
          let w2 := { w1 with db := { w1.db with
            deployableVersions := w1.db.deployableVersions.filter (fun d =>
              !(d.org_id == org_id && d.channel_id == channel.uuid)) } }
          let w3 := { w2 with db := { w2.db with
            channels := deleteFirst (fun c => c.org_id == org_id && c.uuid == uuid)
              w2.db.channels } }
          ⟨.ok uuid, [w, w1, w2, w3]⟩

/-- Embeds `Mutation.removeChannel` with its catch block (lines 437-443). -/
def removeChannel (w : World) (conf : Conf) (env : Env) (org_id uuid : String) : OpOut String :=
  catchBasicOut "removeChannel" (removeChannelTry w conf env org_id uuid)

/-! ## Mutation.removeChannelVersion -/

/-- The `try` body of `Mutation.removeChannelVersion` (channel.js lines
449-483): record lookup, blocking-subscription check, owning-channel lookup,
authorization, summary lookup; then — dispatching on the summary's
`location` — the s3 object deletion when s3-backed, then the record
deletion (`deleteOne`), then the summary removal (splice plus `updateOne`),
in that order. -/
def removeChannelVersionTry (w : World) (conf : Conf) (env : Env) (org_id uuid : String) :
    OpOut String :=
  match w.db.deployableVersions.find? (fun d => d.org_id == org_id && d.uuid == uuid) with
  | none => ⟨.error (.notFound (versionUuidNotFoundMsg uuid)), [w]⟩
  | some deployableVersionObj =>
    let subCount := (w.db.subscriptions.filter (fun s =>
      s.org_id == org_id && s.version_uuid == uuid)).length
    if subCount > 0 then ⟨.error (.validation (subsDependVersionMsg subCount)), [w]⟩
    else
      let channel_uuid := deployableVersionObj.channel_id
      match w.db.channels.find? (fun c => c.uuid == channel_uuid && c.org_id == org_id) with
      | none => ⟨.error (.notFound (channelNotFoundMsg channel_uuid)), [w]⟩
      | some channel =>
        match validAuth env "MANAGEVERSION" with
        | .error e => ⟨.error e, [w]⟩
        | .ok _ =>
          match channel.versions.find? (fun v => v.uuid == uuid) with
          | none => ⟨.error (.notFound (removeVerObjNotFoundMsg uuid channel.name)), [w]⟩
          | some versionObj =>
            let step1 : Except RazeeErr World :=
              if versionObj.location == "s3" then
                deleteDeployableVersionFromS3 conf env w deployableVersionObj
              else .ok w
            match step1 with
            | .error e => ⟨.error e, [w]⟩
            | .ok wS3 =>
              let w1 := { wS3 with db := { wS3.db with
                deployableVersions := deleteFirst (fun d =>
                  d.org_id == org_id && d.uuid == uuid) wS3.db.deployableVersions } }
              let versionObjs :=
                channel.versions.eraseIdx (channel.versions.findIdx (fun v => v.uuid == uuid))
              let w2 := { w1 with db := { w1.db with
                channels := updateFirst (fun c => c.org_id == org_id && c.uuid == channel_uuid)
                  (fun c => { c with versions := versionObjs }) w1.db.channels } }
              ⟨.ok uuid, [w, wS3, w1, w2]⟩

/-- Embeds `Mutation.removeChannelVersion` with its catch block (lines 484-490). -/
def removeChannelVersion (w : World) (conf : Conf) (env : Env) (org_id uuid : String) :
    OpOut String :=
  catchBasicOut "removeChannelVersion" (removeChannelVersionTry w conf env org_id uuid)

/-! ## Consistency predicates for the summary/record duality -/

/-- A record with the given org and uuid exists. -/
def hasRecordB (db : DB) (org_id uuid : String) : Bool :=
  db.deployableVersions.any (fun d => d.org_id == org_id && d.uuid == uuid)

/-- Some channel of the organization holds a summary entry for the uuid. -/
def summaryRefdB (db : DB) (org_id uuid : String) : Bool :=
  db.channels.any (fun c => c.org_id == org_id && c.versions.any (fun v => v.uuid == uuid))

/-- Every summary entry of every channel references an existing version
record of the same organization and channel. -/
def danglingFreeB (db : DB) : Bool :=
  db.channels.all (fun c => c.versions.all (fun v =>
    db.deployableVersions.any (fun d =>
      d.org_id == c.org_id && d.channel_id == c.uuid && d.uuid == v.uuid)))

/-! ## Concrete fixtures used by witnesses and counterexamples -/

/-- An organization with one key. -/
def org1 : Organization := ⟨"o1", ["k1"]⟩

/-- A summary entry for version `v1` with the given location tag. -/
def sum1 (loc : String) : VersionSummary := ⟨"v1", "ver1", "d", loc, 7⟩

/-- A version record `v1` of channel `c1` with the given location and content. -/
def dv1 (loc content : String) : DeployableVersion :=
  ⟨"o1", "v1", "c1", "chan1", "ver1", "d", loc, content, "iv1", "yaml", 7⟩

/-- Channel `c1` of `o1` holding the given summaries. -/
def chan1 (vs : List VersionSummary) : Channel := ⟨"c1", "o1", "chan1", [], vs⟩

/-- A world over `org1` with the given channels, records, subscriptions and
object store contents. -/
def world0 (chs : List Channel) (dvs : List DeployableVersion)
    (subs : List Subscription) (s3 : List S3Object) : World :=
  ⟨⟨[org1], chs, dvs, subs⟩, s3⟩

/-- An environment where every external call succeeds. -/
def envAll : Env :=
  ⟨fun _ => true, fun _ => true, fun _ => true, "id9", "u9", "iv9", 9, "kube", "owner"⟩

/-- The environment `envAll` with every authorization denied. -/
def envNoAuth : Env := { envAll with authOk := fun _ => false }

/-- The environment `envAll` with every object-store deletion failing. -/
def envS3Fail : Env := { envAll with s3DeleteOk := fun _ => false }

/-- Configuration without an s3 endpoint: the inline (mongo) backend is
active for new writes. -/
def conf0 : Conf := ⟨⟨none, "bkt"⟩⟩

/-- Configuration with an s3 endpoint: the object-store backend is active
for new writes. -/
def confS3 : Conf := ⟨⟨some "https://s3.example", "bkt"⟩⟩

/-! ## Helper lemmas -/

theorem mem_updateFirst {p : α → Bool} {f : α → α} {l : List α} {x : α}
    (hx : x ∈ updateFirst p f l) : x ∈ l ∨ ∃ y, y ∈ l ∧ p y = true ∧ x = f y := by
  induction l with
  | nil => simp [updateFirst] at hx
  | cons a as ih =>
    by_cases hpa : p a = true
    · simp only [updateFirst, hpa, if_true] at hx
      rcases List.mem_cons.mp hx with h | h
      · exact Or.inr ⟨a, List.mem_cons_self a as, hpa, h⟩
      · exact Or.inl (List.mem_cons_of_mem a h)
    · simp only [updateFirst, hpa, if_false] at hx
      rcases List.mem_cons.mp hx with h | h
      · exact Or.inl (h ▸ List.mem_cons_self a as)
      · rcases ih h with h2 | ⟨y, hy, hpy, hxy⟩
        · exact Or.inl (List.mem_cons_of_mem a h2)
        · exact Or.inr ⟨y, List.mem_cons_of_mem a hy, hpy, hxy⟩

theorem deleteFirst_any_eq_false {p : α → Bool} {l : List α}
    (h : (l.filter p).length ≤ 1) : (deleteFirst p l).any p = false := by
  induction l with
  | nil => rfl
  | cons a as ih =>
    by_cases hpa : p a = true
    · simp only [deleteFirst, hpa, if_true]
      simp only [List.filter_cons, hpa, if_true, List.length_cons] at h
      have hlen : (as.filter p).length = 0 := by omega
      have hnil : as.filter p = [] := List.length_eq_zero.mp hlen
      have := List.filter_eq_nil_iff.mp hnil
      exact List.any_eq_false.mpr (fun x hx => by simpa using this x hx)
    · simp only [deleteFirst, hpa, if_false, List.any_cons]
      simp only [List.filter_cons, hpa, if_false] at h
      simp [hpa, ih h]

theorem danglingFreeB_append_record {db : DB} (d : DeployableVersion)
    (h : danglingFreeB db = true) :
    danglingFreeB { db with deployableVersions := db.deployableVersions ++ [d] } = true := by
  simp only [danglingFreeB, List.all_eq_true, List.any_eq_true] at h ⊢
  intro c hc v hv
  rcases h c hc v hv with ⟨x, hx, hxp⟩
  exact ⟨x, List.mem_append_left _ hx, hxp⟩

theorem danglingFreeB_push_summary {db : DB} {orgv chUuid : String} (su : VersionSummary)
    (hd : ∃ d, d ∈ db.deployableVersions ∧
      (d.org_id == orgv && d.channel_id == chUuid && d.uuid == su.uuid) = true)
    (h : danglingFreeB db = true) :
    danglingFreeB
      { db with
          channels := updateFirst (fun c => c.org_id == orgv && c.uuid == chUuid)
            (fun c => { c with versions := c.versions ++ [su] }) db.channels } = true := by
  simp only [danglingFreeB, List.all_eq_true, List.any_eq_true] at h ⊢
  intro c hc v hv
  rcases mem_updateFirst hc with hcl | ⟨y, hy, hpy, hcy⟩
  · exact h c hcl v hv
  · subst hcy
    rcases List.mem_append.mp hv with hvv | hvv
    · exact h y hy v hvv
    · have hv' : v = su := by simpa using hvv
      rcases hd with ⟨d, hdmem, hdp⟩
      simp only [Bool.and_eq_true, beq_iff_eq] at hpy hdp
      obtain ⟨h1, h2⟩ := hpy
      obtain ⟨⟨h3, h4⟩, h5⟩ := hdp
      subst hv'
      exact ⟨d, hdmem, by simp [Bool.and_eq_true, beq_iff_eq, h1, h2, h3, h4, h5]⟩

theorem s3DeleteObject_db_eq {env : Env} {w w1 : World} {bucket path : String}
    (h : s3DeleteObject env w bucket path = .ok w1) : w1.db = w.db := by
  unfold s3DeleteObject at h
  split at h
  · cases h; rfl
  · cases h

theorem deleteDeployableVersionFromS3_db_eq {conf : Conf} {env : Env} {w w1 : World}
    {dv : DeployableVersion} (h : deleteDeployableVersionFromS3 conf env w dv = .ok w1) :
    w1.db = w.db := s3DeleteObject_db_eq h

theorem boundedDeleteAll_db_eq {bound : Nat} {conf : Conf} {env : Env} {w w' : World}
    {vs : List DeployableVersion} (h : boundedDeleteAll bound conf env w vs = .ok w') :
    w'.db = w.db := by
  induction vs generalizing w with
  | nil => simp only [boundedDeleteAll] at h; cases h; rfl
  | cons dv rest ih =>
    simp only [boundedDeleteAll] at h
    cases hstep : deleteDeployableVersionFromS3 conf env w dv with
    | error e => rw [hstep] at h; cases h
    | ok w1 =>
      rw [hstep] at h
      rw [ih h, deleteDeployableVersionFromS3_db_eq hstep]

theorem boundedDeleteAll_error_not_basic {bound : Nat} {conf : Conf} {env : Env} {w : World}
    {vs : List DeployableVersion} {e : RazeeErr}
    (h : boundedDeleteAll bound conf env w vs = .error e) : e.isBasicRazeeError = false := by
  induction vs generalizing w with
  | nil => simp [boundedDeleteAll] at h
  | cons dv rest ih =>
    simp only [boundedDeleteAll] at h
    cases hstep : deleteDeployableVersionFromS3 conf env w dv with
    | error e1 =>
      rw [hstep] at h
      cases h
      simp only [deleteDeployableVersionFromS3, s3DeleteObject] at hstep
      split at hstep
      · cases hstep
      · cases hstep; rfl
    | ok w1 => rw [hstep] at h; exact ih h

theorem boundedDeleteAll_error_of_fail {bound : Nat} {conf : Conf} {env : Env} {w : World}
    {vs : List DeployableVersion}
    (h : vs.any (fun dv => !env.s3DeleteOk (dvS3Key dv)) = true) :
    ∃ e, boundedDeleteAll bound conf env w vs = .error e := by
  induction vs generalizing w with
  | nil => simp at h
  | cons dv rest ih =>
    by_cases hdv : env.s3DeleteOk (dvS3Key dv) = true
    · have hrest : rest.any (fun dv => !env.s3DeleteOk (dvS3Key dv)) = true := by
        simp only [List.any_cons, hdv, Bool.not_true, Bool.false_or] at h
        exact h
      have hok : deleteDeployableVersionFromS3 conf env w dv =
          .ok { w with s3 := w.s3.filter (fun o =>
            !(o.bucket == (s3PartsOfUrl dv.content).1 && o.path == (s3PartsOfUrl dv.content).2)) } := by
        unfold deleteDeployableVersionFromS3 s3DeleteObject
        simp only [dvS3Key] at hdv
        simp [hdv]
      rcases ih (w := { w with s3 := w.s3.filter (fun o =>
          !(o.bucket == (s3PartsOfUrl dv.content).1 && o.path == (s3PartsOfUrl dv.content).2)) })
        hrest with ⟨e, he⟩
      exact ⟨e, by simp only [boundedDeleteAll, hok]; exact he⟩
    · refine ⟨.externalError ("s3 delete failed: " ++ dvS3Key dv), ?_⟩
      have herr : deleteDeployableVersionFromS3 conf env w dv =
          .error (.externalError ("s3 delete failed: " ++ dvS3Key dv)) := by
        unfold deleteDeployableVersionFromS3 s3DeleteObject
        simp only [Bool.not_eq_true] at hdv
        simp only [dvS3Key, s3Key] at hdv ⊢
        simp [hdv]
      simp only [boundedDeleteAll, herr]

/-! ## Claim C9 -/

/-- Claim C9: a successful editChannel not only renames/retags the channel
but also updates every Subscription in the organization whose channel_uuid
matches the edited channel, setting that subscription's channelName field to
the new name. -/
theorem c9_theorem (w : World) (env : Env) (org_id uuid name : String) (tags : List String)
    (ch : Channel)
    (hch : w.db.channels.find? (fun c => c.uuid == uuid && c.org_id == org_id) = some ch)
    (hauth : env.authOk "UPDATE" = true) :
    (editChannel w env org_id uuid name tags).result = .ok (uuid, name, tags) ∧
    ((editChannel w env org_id uuid name tags).states.getLastD w).db.subscriptions =
      w.db.subscriptions.map (fun s =>
        if s.org_id == org_id && s.channel_uuid == uuid then { s with channelName := name }
        else s) ∧
    ((editChannel w env org_id uuid name tags).states.getLastD w).db.channels =
      updateFirst (fun c => c.org_id == org_id && c.uuid == uuid)
        (fun c => { c with name := name, tags := tags }) w.db.channels := by
  simp [editChannel, catchBasicOut, catchBasic, editChannelTry, hch, validAuth, hauth]

/-- Witness for C9 at a concrete world: the subscription referencing the
edited channel gets the new name, the unrelated one keeps the old one. -/
theorem c9_witness :
    (editChannel (world0 [chan1 []] [] [⟨"o1", "c1", "v", "old"⟩, ⟨"o1", "cX", "v", "old"⟩] [])
        envAll "o1" "c1" "nn" ["t"]).result = .ok ("c1", "nn", ["t"]) ∧
    ((editChannel (world0 [chan1 []] [] [⟨"o1", "c1", "v", "old"⟩, ⟨"o1", "cX", "v", "old"⟩] [])
        envAll "o1" "c1" "nn" ["t"]).states.getLastD
          (world0 [chan1 []] [] [⟨"o1", "c1", "v", "old"⟩, ⟨"o1", "cX", "v", "old"⟩] [])).db.subscriptions =
      [⟨"o1", "c1", "v", "nn"⟩, ⟨"o1", "cX", "v", "old"⟩] := by
  have h := c9_theorem
    (world0 [chan1 []] [] [⟨"o1", "c1", "v", "old"⟩, ⟨"o1", "cX", "v", "old"⟩] [])
    envAll "o1" "c1" "nn" ["t"] (chan1 []) (by decide) (by decide)
  exact ⟨h.1, by rw [h.2.1]; decide⟩

/-! ## Claim C10 -/

/-- Claim C10: when a version record exists for (org, uuid) but the owning
channel's summary list has no entry with that uuid, removeChannelVersion
raises NotFoundError before performing any deletion: the record, the summary
list, and any object-store payload are all left unchanged. -/
theorem c10_theorem (w : World) (conf : Conf) (env : Env) (org_id uuid : String)
    (dv : DeployableVersion) (ch : Channel)
    (hdv : w.db.deployableVersions.find? (fun d => d.org_id == org_id && d.uuid == uuid) = some dv)
    (hsub : (w.db.subscriptions.filter (fun s =>
      s.org_id == org_id && s.version_uuid == uuid)).length = 0)
    (hch : w.db.channels.find? (fun c => c.uuid == dv.channel_id && c.org_id == org_id) = some ch)
    (hauth : env.authOk "MANAGEVERSION" = true)
    (hvo : ch.versions.find? (fun v => v.uuid == uuid) = none) :
    (removeChannelVersion w conf env org_id uuid).result =
      .error (.notFound (removeVerObjNotFoundMsg uuid ch.name)) ∧
    (removeChannelVersion w conf env org_id uuid).states = [w] := by
  simp [removeChannelVersion, catchBasicOut, catchBasic, removeChannelVersionTry, hdv, hsub,
    hch, validAuth, hauth, hvo, RazeeErr.isBasicRazeeError]

/-- Witness for C10: an orphaned record (record present, summary absent)
cannot be removed; the operation reports NotFoundError and the world — the
record included — is unchanged. -/
theorem c10_witness :
    (removeChannelVersion (world0 [chan1 []] [dv1 "mongo" "X"] [] []) conf0 envAll "o1" "v1").result =
      .error (.notFound (removeVerObjNotFoundMsg "v1" "chan1")) ∧
    (removeChannelVersion (world0 [chan1 []] [dv1 "mongo" "X"] [] []) conf0 envAll "o1" "v1").states =
      [world0 [chan1 []] [dv1 "mongo" "X"] [] []] :=
  c10_theorem (world0 [chan1 []] [dv1 "mongo" "X"] [] []) conf0 envAll "o1" "v1"
    (dv1 "mongo" "X") (chan1 []) (by decide) (by decide) (by decide) (by decide) (by decide)

/-! ## Claim C2 -/

/-- Counterexample to claim C2 as stated: an already-raised typed domain
error does not reach the caller unmodified on every operation.  In the
channelVersion query over a world whose version record is missing, the inner
body raises a typed NotFoundError, yet the caller receives the generic
RazeeQueryError: the query's catch block wraps every error, typed domain
errors included. -/
theorem c2_counterexample :
    channelVersionTry (world0 [chan1 [sum1 "mongo"]] [] [] []) conf0 envAll "o1"
        (some "c1") (some "v1") none none =
      .error (.notFound (recordNotFoundMsg "chan1" "c1" "ver1" "v1")) ∧
    (RazeeErr.notFound (recordNotFoundMsg "chan1" "c1" "ver1" "v1")).isBasicRazeeError = true ∧
    channelVersion (world0 [chan1 [sum1 "mongo"]] [] [] []) conf0 envAll "o1"
        (some "c1") (some "v1") none none =
      .error (.queryError (queryErrorMsg "channelVersion")) := by
  refine ⟨rfl, rfl, rfl⟩

/-- Claim C2 as amended: the mutations (editChannel, removeChannel,
removeChannelVersion) rethrow an already-raised typed domain error
(BasicRazeeError subclass) unmodified and wrap any other error into the
generic RazeeQueryError, while the channelVersion query wraps every error —
typed domain errors included — into the generic RazeeQueryError. -/
theorem c2_amended_theorem :
    (∀ (w : World) (conf : Conf) (env : Env) (org_id : String)
        (chU vU chN vN : Option String) (e : RazeeErr),
      channelVersionTry w conf env org_id chU vU chN vN = .error e →
      channelVersion w conf env org_id chU vU chN vN =
        .error (.queryError (queryErrorMsg "channelVersion"))) ∧
    (∀ (w : World) (conf : Conf) (env : Env) (org_id uuid : String) (e : RazeeErr),
      (removeChannelVersionTry w conf env org_id uuid).result = .error e →
      (removeChannelVersion w conf env org_id uuid).result =
        (if e.isBasicRazeeError then .error e
         else .error (.queryError (queryErrorMsg "removeChannelVersion")))) ∧
    (∀ (w : World) (conf : Conf) (env : Env) (org_id uuid : String) (e : RazeeErr),
      (removeChannelTry w conf env org_id uuid).result = .error e →
      (removeChannel w conf env org_id uuid).result =
        (if e.isBasicRazeeError then .error e
         else .error (.queryError (queryErrorMsg "removeChannel")))) ∧
    (∀ (w : World) (env : Env) (org_id uuid name : String) (tags : List String) (e : RazeeErr),
      (editChannelTry w env org_id uuid name tags).result = .error e →
      (editChannel w env org_id uuid name tags).result =
        (if e.isBasicRazeeError then .error e
         else .error (.queryError (queryErrorMsg "editChannel")))) := by
  refine ⟨?_, ?_, ?_, ?_⟩
  · intro w conf env org_id chU vU chN vN e h
    simp [channelVersion, catchAllQuery, h]
  · intro w conf env org_id uuid e h
    simp only [removeChannelVersion, catchBasicOut, catchBasic, h]
  · intro w conf env org_id uuid e h
    simp only [removeChannel, catchBasicOut, catchBasic, h]
  · intro w env org_id uuid name tags e h
    simp only [editChannel, catchBasicOut, catchBasic, h]

/-- Witness for C2 as amended: the query wrap applied to the missing-record
world, and the mutation rethrow applied to a typed NotFoundError from
removeChannelVersion. -/
theorem c2_amended_witness :
    channelVersion (world0 [chan1 [sum1 "mongo"]] [] [] []) conf0 envAll "o1"
        (some "c1") (some "v1") none none =
      .error (.queryError (queryErrorMsg "channelVersion")) ∧
    (removeChannelVersion (world0 [] [] [] []) conf0 envAll "o1" "v1").result =
      .error (.notFound (versionUuidNotFoundMsg "v1")) := by
  constructor
  · exact c2_amended_theorem.1 (world0 [chan1 [sum1 "mongo"]] [] [] []) conf0 envAll "o1"
      (some "c1") (some "v1") none none
      (.notFound (recordNotFoundMsg "chan1" "c1" "ver1" "v1")) rfl
  · have h := c2_amended_theorem.2.1 (world0 [] [] [] []) conf0 envAll "o1" "v1"
      (.notFound (versionUuidNotFoundMsg "v1")) rfl
    simpa [RazeeErr.isBasicRazeeError] using h

/-! ## Claim C3 -/

/-- Claim C3 (code bug evaluation): the three lookup layers of
channelVersion do not all raise a layer-identifying NotFoundError.  The
summary layer and the record layer do, with distinct messages; but when the
channel lookup fails, building the NotFoundError message reads the local
`channel_uuid` before its `const` declaration has run, so the code raises a
JavaScript ReferenceError instead (surfaced, like every error of this query,
as the generic RazeeQueryError). -/
theorem c3_code_bug_eval :
    channelVersionTry (world0 [] [] [] []) conf0 envAll "o1" (some "c1") (some "v1") none none =
      .error (.referenceError "channel_uuid") ∧
    channelVersion (world0 [] [] [] []) conf0 envAll "o1" (some "c1") (some "v1") none none =
      .error (.queryError (queryErrorMsg "channelVersion")) ∧
    channelVersionTry (world0 [chan1 []] [dv1 "mongo" "X"] [] []) conf0 envAll "o1"
        (some "c1") (some "v1") none none =
      .error (.notFound (summaryNotFoundMsg (some "v1") "chan1" "c1")) ∧
    channelVersionTry (world0 [chan1 [sum1 "mongo"]] [] [] []) conf0 envAll "o1"
        (some "c1") (some "v1") none none =
      .error (.notFound (recordNotFoundMsg "chan1" "c1" "ver1" "v1")) ∧
    summaryNotFoundMsg (some "v1") "chan1" "c1" ≠ recordNotFoundMsg "chan1" "c1" "ver1" "v1" := by
  refine ⟨rfl, rfl, rfl, rfl, by decide⟩

/-! ## Claim C5 -/

/-- Counterexample to claim C5 as stated: supplying BOTH content sources —
materialized content and a file upload — is not rejected with a
ValidationError; the call succeeds (returning the new version uuid), because
the source only rejects when neither is supplied. -/
theorem c5_counterexample :
    (addChannelVersion (world0 [chan1 []] [] [] []) conf0 ⟨10, 1⟩ envAll "o1" (some "c1")
        (some "ver9") (some "yaml") (some "a: 1") (some "b: 2") "d").result = .ok "u9" := by
  rfl

/-- Claim C5 as amended: addChannelVersion rejects with the
file-or-content ValidationError exactly when no file is supplied and the
content argument is absent or empty; when both sources are supplied, the
streamed file takes precedence and the content argument is ignored
entirely. -/
theorem c5_amended_theorem :
    (∀ (w : World) (conf : Conf) (lim : Limits) (env : Env) (org_id : String)
        (chU n ty ct : Option String) (desc : String) (org : Organization),
      w.db.organizations.find? (fun o => o.idStr == org_id) = some org →
      strTruthy n = true → typeInvalid ty = false → strTruthy chU = true →
      strTruthy ct = false →
      (addChannelVersion w conf lim env org_id chU n ty ct none desc).result =
        .error (.validation fileOrContentRequiredMsg) ∧
      (addChannelVersion w conf lim env org_id chU n ty ct none desc).states = [w]) ∧
    (∀ (w : World) (conf : Conf) (lim : Limits) (env : Env) (org_id : String)
        (chU n ty : Option String) (c fc : String) (desc : String),
      addChannelVersion w conf lim env org_id chU n ty (some c) (some fc) desc =
        addChannelVersion w conf lim env org_id chU n ty none (some fc) desc) := by
  constructor
  · intro w conf lim env org_id chU n ty ct desc org horg hn hty hchU hct
    simp [addChannelVersion, horg, hn, hty, hchU, hct]
  · intro w conf lim env org_id chU n ty c fc desc
    rfl

/-- Witness for C5 as amended: with no file and empty content the call is
rejected; and a call with both sources equals the call with the file
alone. -/
theorem c5_amended_witness :
    (addChannelVersion (world0 [chan1 []] [] [] []) conf0 ⟨10, 1⟩ envAll "o1" (some "c1")
        (some "ver9") (some "yaml") (some "") none "d").result =
      .error (.validation fileOrContentRequiredMsg) ∧
    addChannelVersion (world0 [chan1 []] [] [] []) conf0 ⟨10, 1⟩ envAll "o1" (some "c1")
        (some "ver9") (some "yaml") (some "a: 1") (some "b: 2") "d" =
      addChannelVersion (world0 [chan1 []] [] [] []) conf0 ⟨10, 1⟩ envAll "o1" (some "c1")
        (some "ver9") (some "yaml") none (some "b: 2") "d" := by
  constructor
  · exact (c5_amended_theorem.1 (world0 [chan1 []] [] [] []) conf0 ⟨10, 1⟩ envAll "o1"
      (some "c1") (some "ver9") (some "yaml") (some "") "d" org1
      (by decide) (by decide) (by decide) (by decide) (by decide)).1
  · exact c5_amended_theorem.2 (world0 [chan1 []] [] [] []) conf0 ⟨10, 1⟩ envAll "o1"
      (some "c1") (some "ver9") (some "yaml") "a: 1" "b: 2" "d"

/-! ## Claim C6 -/

/-- Counterexample to claim C6 as stated: an actor lacking the
version-management capability who also omits the name argument receives the
name ValidationError, not an AuthorizationError — the authorization check
does not run first. -/
theorem c6_counterexample :
    (addChannelVersion (world0 [chan1 []] [] [] []) conf0 ⟨10, 1⟩ envNoAuth "o1" (some "c1")
        none (some "yaml") (some "a: 1") none "d").result =
      .error (.validation nameRequiredMsg) := by
  rfl

/-- Claim C6 as amended: in addChannelVersion the authorization check runs
only after the organization lookup, the name/type/channel_uuid/content-source
validations and the channel lookup; an unauthorized actor with a missing or
empty name receives the name ValidationError, and the AuthorizationError is
raised once those earlier checks pass. -/
theorem c6_amended_theorem :
    (∀ (w : World) (conf : Conf) (lim : Limits) (env : Env) (org_id : String)
        (chU n ty ct fl : Option String) (desc : String) (org : Organization),
      env.authOk "MANAGEVERSION" = false →
      w.db.organizations.find? (fun o => o.idStr == org_id) = some org →
      strTruthy n = false →
      (addChannelVersion w conf lim env org_id chU n ty ct fl desc).result =
        .error (.validation nameRequiredMsg)) ∧
    (∀ (w : World) (conf : Conf) (lim : Limits) (env : Env) (org_id : String)
        (chU n ty ct fl : Option String) (desc : String) (org : Organization) (ch : Channel),
      env.authOk "MANAGEVERSION" = false →
      w.db.organizations.find? (fun o => o.idStr == org_id) = some org →
      strTruthy n = true → typeInvalid ty = false → strTruthy chU = true →
      (fl.isSome || strTruthy ct) = true →
      w.db.channels.find? (fun c => chU == some c.uuid && c.org_id == org_id) = some ch →
      (addChannelVersion w conf lim env org_id chU n ty ct fl desc).result =
        .error (.authorization ("not allowed to MANAGEVERSION"))) := by
  constructor
  · intro w conf lim env org_id chU n ty ct fl desc org hauth horg hn
    simp [addChannelVersion, horg, hn]
  · intro w conf lim env org_id chU n ty ct fl desc org ch hauth horg hn hty hchU hsrc hch
    have hnot : ¬(fl = none ∧ strTruthy ct = false) := by
      rintro ⟨h1, h2⟩
      subst h1
      simp [h2] at hsrc
    simp [addChannelVersion, horg, hn, hty, hchU, hch, validAuth, hauth, hnot]

/-- Witness for C6 as amended: at a concrete world with authorization denied,
a missing name yields the ValidationError, while fully valid arguments yield
the AuthorizationError. -/
theorem c6_amended_witness :
    (addChannelVersion (world0 [chan1 []] [] [] []) conf0 ⟨10, 1⟩ envNoAuth "o1" (some "c1")
        none (some "yaml") (some "a: 1") none "d").result =
      .error (.validation nameRequiredMsg) ∧
    (addChannelVersion (world0 [chan1 []] [] [] []) conf0 ⟨10, 1⟩ envNoAuth "o1" (some "c1")
        (some "ver9") (some "yaml") (some "a: 1") none "d").result =
      .error (.authorization ("not allowed to MANAGEVERSION")) := by
  constructor
  · exact c6_amended_theorem.1 (world0 [chan1 []] [] [] []) conf0 ⟨10, 1⟩ envNoAuth "o1"
      (some "c1") none (some "yaml") (some "a: 1") none "d" org1 rfl (by decide) (by decide)
  · exact c6_amended_theorem.2 (world0 [chan1 []] [] [] []) conf0 ⟨10, 1⟩ envNoAuth "o1"
      (some "c1") (some "ver9") (some "yaml") (some "a: 1") none "d" org1 (chan1 [])
      rfl (by decide) (by decide) (by decide) (by decide) (by decide) (by decide)

/-! ## Claim C8 -/

/-- Claim C8: adding a version to a channel that already holds
`MAX_TOTAL` version records fails with a ValidationError without mutating
any state (no record, no summary, no backend write), while at
`MAX_TOTAL - 1` records the quota check passes and the operation succeeds
for otherwise valid input (shown here for the inline backend). -/
theorem c8_theorem (w : World) (conf : Conf) (lim : Limits) (env : Env) (org_id : String)
    (chU n ty ct fl : Option String) (desc : String) (org : Organization) (ch : Channel)
    (horg : w.db.organizations.find? (fun o => o.idStr == org_id) = some org)
    (hn : strTruthy n = true) (hty : typeInvalid ty = false) (hchU : strTruthy chU = true)
    (hsrc : (fl.isSome || strTruthy ct) = true)
    (hch : w.db.channels.find? (fun c => chU == some c.uuid && c.org_id == org_id) = some ch)
    (hauth : env.authOk "MANAGEVERSION" = true)
    (hnodup : (w.db.deployableVersions.filter (fun d =>
        d.org_id == org_id && some d.channel_id == chU)).any
      (fun version => some version.name == n) = false) :
    ((w.db.deployableVersions.filter (fun d =>
        d.org_id == org_id && some d.channel_id == chU)).length = lim.verMaxTotal →
      (addChannelVersion w conf lim env org_id chU n ty ct fl desc).result =
        .error (.validation (tooManyVersionsMsg (optStr chU))) ∧
      (addChannelVersion w conf lim env org_id chU n ty ct fl desc).states = [w]) ∧
    (∀ cs : String,
      (w.db.deployableVersions.filter (fun d =>
        d.org_id == org_id && some d.channel_id == chU)).length + 1 = lim.verMaxTotal →
      fl = none → ct = some cs →
      cs.utf8ByteSize ≤ lim.yamlMaxSizeMB * 1024 * 1024 →
      env.yamlOk cs = true →
      conf.s3.endpoint = none →
      (addChannelVersion w conf lim env org_id chU n ty ct fl desc).result = .ok env.newUuid) := by
  have hnot : ¬(fl = none ∧ strTruthy ct = false) := by
    rintro ⟨h1, h2⟩
    subst h1
    simp [h2] at hsrc
  constructor
  · intro hq
    simp [addChannelVersion, horg, hn, hty, hchU, hnot, hch, validAuth, hauth, hnodup, hq]
  · intro cs hq hfl hct hsize hyaml hconf
    subst hfl
    subst hct
    have hcs : strTruthy (some cs) = true := by simpa using hsrc
    have hge : ¬((w.db.deployableVersions.filter (fun d =>
        d.org_id == org_id && some d.channel_id == chU)).length ≥ lim.verMaxTotal) := by
      omega
    have hsz : ¬(cs.utf8ByteSize > lim.yamlMaxSizeMB * 1024 * 1024) := by omega
    simp [addChannelVersion, horg, hn, hty, hchU, hcs, hch, validAuth, hauth, hnodup,
      hge, hsz, hyaml, hconf]

/-- Witness for C8: with the quota at 2, a channel with two records rejects
a third version and leaves the world untouched, while a channel with one
record accepts it. -/
theorem c8_witness :
    (addChannelVersion (world0 [chan1 []]
        [⟨"o1", "vA", "c1", "chan1", "verA", "d", "mongo", "X", "iv", "yaml", 1⟩,
         ⟨"o1", "vB", "c1", "chan1", "verB", "d", "mongo", "X", "iv", "yaml", 1⟩] [] [])
        conf0 ⟨2, 1⟩ envAll "o1" (some "c1") (some "ver9") (some "yaml") (some "a: 1")
        none "d").result = .error (.validation (tooManyVersionsMsg "c1")) ∧
    (addChannelVersion (world0 [chan1 []]
        [⟨"o1", "vA", "c1", "chan1", "verA", "d", "mongo", "X", "iv", "yaml", 1⟩,
         ⟨"o1", "vB", "c1", "chan1", "verB", "d", "mongo", "X", "iv", "yaml", 1⟩] [] [])
        conf0 ⟨2, 1⟩ envAll "o1" (some "c1") (some "ver9") (some "yaml") (some "a: 1")
        none "d").states =
      [world0 [chan1 []]
        [⟨"o1", "vA", "c1", "chan1", "verA", "d", "mongo", "X", "iv", "yaml", 1⟩,
         ⟨"o1", "vB", "c1", "chan1", "verB", "d", "mongo", "X", "iv", "yaml", 1⟩] [] []] ∧
    (addChannelVersion (world0 [chan1 []]
        [⟨"o1", "vA", "c1", "chan1", "verA", "d", "mongo", "X", "iv", "yaml", 1⟩] [] [])
        conf0 ⟨2, 1⟩ envAll "o1" (some "c1") (some "ver9") (some "yaml") (some "a: 1")
        none "d").result = .ok "u9" := by
  refine ⟨?_, ?_, ?_⟩
  · exact ((c8_theorem (world0 [chan1 []]
      [⟨"o1", "vA", "c1", "chan1", "verA", "d", "mongo", "X", "iv", "yaml", 1⟩,
       ⟨"o1", "vB", "c1", "chan1", "verB", "d", "mongo", "X", "iv", "yaml", 1⟩] [] [])
      conf0 ⟨2, 1⟩ envAll "o1" (some "c1") (some "ver9") (some "yaml") (some "a: 1") none "d"
      org1 (chan1 []) (by decide) (by decide) (by decide) (by decide) (by decide) (by decide)
      (by decide) (by decide)).1 (by decide)).1
  · exact ((c8_theorem (world0 [chan1 []]
      [⟨"o1", "vA", "c1", "chan1", "verA", "d", "mongo", "X", "iv", "yaml", 1⟩,
       ⟨"o1", "vB", "c1", "chan1", "verB", "d", "mongo", "X", "iv", "yaml", 1⟩] [] [])
      conf0 ⟨2, 1⟩ envAll "o1" (some "c1") (some "ver9") (some "yaml") (some "a: 1") none "d"
      org1 (chan1 []) (by decide) (by decide) (by decide) (by decide) (by decide) (by decide)
      (by decide) (by decide)).1 (by decide)).2
  · exact (c8_theorem (world0 [chan1 []]
      [⟨"o1", "vA", "c1", "chan1", "verA", "d", "mongo", "X", "iv", "yaml", 1⟩] [] [])
      conf0 ⟨2, 1⟩ envAll "o1" (some "c1") (some "ver9") (some "yaml") (some "a: 1") none "d"
      org1 (chan1 []) (by decide) (by decide) (by decide) (by decide) (by decide) (by decide)
      (by decide) (by decide)).2 "a: 1" (by decide) rfl rfl (by decide) (by decide) rfl

/-! ## Claim C7 -/

/-- Claim C7: removeChannel deletes the object-store payloads of the
channel's s3-located versions through a fan-out whose concurrency ceiling is
the constant 5; a failure of any one of those deletions makes the whole
batch fail, and then the operation aborts before any version record or the
channel itself is deleted; on success the version records are deleted first
and the channel last, as the state trace shows. -/
theorem c7_theorem (w : World) (conf : Conf) (env : Env) (org_id uuid : String) (ch : Channel)
    (s3vs : List DeployableVersion)
    (hch : w.db.channels.find? (fun c => c.uuid == uuid && c.org_id == org_id) = some ch)
    (hauth : env.authOk "DELETE" = true)
    (hsub : (w.db.subscriptions.filter (fun s =>
      s.org_id == org_id && s.channel_uuid == ch.uuid)).length = 0)
    (hs3 : s3vs = w.db.deployableVersions.filter (fun d =>
      d.org_id == org_id && d.channel_id == ch.uuid && d.location == "s3")) :
    pLimitBound = 5 ∧
    (s3vs.any (fun dv => !env.s3DeleteOk (dvS3Key dv)) = true →
      ∃ e, boundedDeleteAll pLimitBound conf env w s3vs = .error e) ∧
    (∀ e, boundedDeleteAll pLimitBound conf env w s3vs = .error e →
      (removeChannel w conf env org_id uuid).result =
        .error (.queryError (queryErrorMsg "removeChannel")) ∧
      (removeChannel w conf env org_id uuid).states = [w]) ∧
    (∀ w1, boundedDeleteAll pLimitBound conf env w s3vs = .ok w1 →
      (removeChannel w conf env org_id uuid).result = .ok uuid ∧
      (removeChannel w conf env org_id uuid).states.map (fun x => x.db) =
        [w.db, w.db,
         { w.db with
             deployableVersions := w.db.deployableVersions.filter (fun d =>
               !(d.org_id == org_id && d.channel_id == ch.uuid)) },
         { w.db with
             deployableVersions := w.db.deployableVersions.filter (fun d =>
               !(d.org_id == org_id && d.channel_id == ch.uuid)),
             channels := deleteFirst (fun c => c.org_id == org_id && c.uuid == uuid)
               w.db.channels }]) := by
  refine ⟨rfl, ?_, ?_, ?_⟩
  · intro hfail
    exact boundedDeleteAll_error_of_fail hfail
  · intro e he
    have hnb := boundedDeleteAll_error_not_basic he
    rw [hs3] at he
    simp [removeChannel, catchBasicOut, catchBasic, removeChannelTry, hch, validAuth, hauth,
      hsub, he, hnb]
  · intro w1 hok
    have hdb := boundedDeleteAll_db_eq hok
    rw [hs3] at hok
    simp [removeChannel, catchBasicOut, catchBasic, removeChannelTry, hch, validAuth, hauth,
      hsub, hok, hdb]

/-- Witness for C7: a channel with one s3-backed version; with the
object-store deletion failing the operation aborts with the wrapped error
and nothing is deleted, and with it succeeding the cascade completes. -/
theorem c7_witness :
    (removeChannel (world0 [chan1 [sum1 "s3"]] [dv1 "s3" "https://s3.example/bkt/obj1"] []
        [⟨"bkt", "obj1", "D"⟩]) conf0 envS3Fail "o1" "c1").result =
      .error (.queryError (queryErrorMsg "removeChannel")) ∧
    (removeChannel (world0 [chan1 [sum1 "s3"]] [dv1 "s3" "https://s3.example/bkt/obj1"] []
        [⟨"bkt", "obj1", "D"⟩]) conf0 envS3Fail "o1" "c1").states =
      [world0 [chan1 [sum1 "s3"]] [dv1 "s3" "https://s3.example/bkt/obj1"] []
        [⟨"bkt", "obj1", "D"⟩]] ∧
    (removeChannel (world0 [chan1 [sum1 "s3"]] [dv1 "s3" "https://s3.example/bkt/obj1"] []
        [⟨"bkt", "obj1", "D"⟩]) conf0 envAll "o1" "c1").result = .ok "c1" := by
  have hfail := (c7_theorem (world0 [chan1 [sum1 "s3"]] [dv1 "s3" "https://s3.example/bkt/obj1"]
      [] [⟨"bkt", "obj1", "D"⟩]) conf0 envS3Fail "o1" "c1" (chan1 [sum1 "s3"])
      [dv1 "s3" "https://s3.example/bkt/obj1"] (by decide) rfl (by decide) (by decide)).2.2.1
    (.externalError ("s3 delete failed: " ++ s3Key "bkt" "obj1")) rfl
  have hok := (c7_theorem (world0 [chan1 [sum1 "s3"]] [dv1 "s3" "https://s3.example/bkt/obj1"]
      [] [⟨"bkt", "obj1", "D"⟩]) conf0 envAll "o1" "c1" (chan1 [sum1 "s3"])
      [dv1 "s3" "https://s3.example/bkt/obj1"] (by decide) rfl (by decide) (by decide)).2.2.2
    ⟨(world0 [chan1 [sum1 "s3"]] [dv1 "s3" "https://s3.example/bkt/obj1"] [] []).db, []⟩ rfl
  exact ⟨hfail.1, hfail.2, hok.1⟩

/-! ## Claim C4 -/

/-- Counterexample to claim C4 as stated: the read path does not dispatch on
the RECORD's stored location tag — it dispatches on the version summary's
tag.  In a world where the summary says `s3` while the record itself says
`mongo`, the content is fetched and decrypted through the object-store path,
not decrypted inline as the record's own tag dictates. -/
theorem c4_counterexample :
    channelVersionTry (world0 [chan1 [sum1 "s3"]] [dv1 "mongo" "https://s3.example/bkt/obj1"]
        [] [⟨"bkt", "obj1", "D"⟩]) conf0 envAll "o1" (some "c1") (some "v1") none none =
      .ok { dv1 "mongo" "https://s3.example/bkt/obj1" with
              content := decryptWithIv "k1" "iv1" "D" } ∧
    (dv1 "mongo" "https://s3.example/bkt/obj1").location = "mongo" ∧
    decryptWithIv "k1" "iv1" "D" ≠
      decryptOrgData "k1" (dv1 "mongo" "https://s3.example/bkt/obj1").content := by
  refine ⟨rfl, rfl, by decide⟩

/-- Claim C4 as amended: the read and delete paths dispatch on the version
summary's stored location tag (written equal to the record's at creation),
never on the current system configuration: the read result is
`readContentByLocation` applied to the summary's tag, both paths are
literally independent of the configuration argument, a non-s3 summary tag
triggers no object-store deletion, and an s3 summary tag deletes exactly the
object named by the record's stored locator. -/
theorem c4_amended_theorem :
    (∀ (w : World) (conf : Conf) (env : Env) (org_id : String)
        (chU vU chN vN : Option String) (org : Organization) (ch : Channel)
        (vo : VersionSummary) (dv : DeployableVersion),
      w.db.organizations.find? (fun o => o.idStr == org_id) = some org →
      w.db.channels.find? (fun c =>
        if strTruthy chN then chN == some c.name && c.org_id == org_id
        else chU == some c.uuid && c.org_id == org_id) = some ch →
      env.authOk "READ" = true →
      ch.versions.find? (fun v => vU == some v.uuid || vN == some v.name) = some vo →
      w.db.deployableVersions.find? (fun d =>
        d.org_id == org_id && d.channel_id == ch.uuid && d.uuid == vo.uuid) = some dv →
      channelVersionTry w conf env org_id chU vU chN vN =
        (readContentByLocation w (org.orgKeys.head?.getD "") vo.location dv).map
          (fun content => { dv with content := content })) ∧
    (∀ (w : World) (conf conf2 : Conf) (env : Env) (org_id : String)
        (chU vU chN vN : Option String),
      channelVersionTry w conf env org_id chU vU chN vN =
        channelVersionTry w conf2 env org_id chU vU chN vN) ∧
    (∀ (w : World) (conf conf2 : Conf) (env : Env) (org_id uuid : String),
      removeChannelVersionTry w conf env org_id uuid =
        removeChannelVersionTry w conf2 env org_id uuid) ∧
    (∀ (w : World) (conf : Conf) (env : Env) (org_id uuid : String)
        (dv : DeployableVersion) (ch : Channel) (vo : VersionSummary),
      w.db.deployableVersions.find? (fun d => d.org_id == org_id && d.uuid == uuid) = some dv →
      (w.db.subscriptions.filter (fun s =>
        s.org_id == org_id && s.version_uuid == uuid)).length = 0 →
      w.db.channels.find? (fun c => c.uuid == dv.channel_id && c.org_id == org_id) = some ch →
      env.authOk "MANAGEVERSION" = true →
      ch.versions.find? (fun v => v.uuid == uuid) = some vo →
      (vo.location == "s3") = false →
      (removeChannelVersionTry w conf env org_id uuid).states.all
        (fun x => x.s3 == w.s3) = true) ∧
    (∀ (w : World) (conf : Conf) (env : Env) (org_id uuid : String)
        (dv : DeployableVersion) (ch : Channel) (vo : VersionSummary),
      w.db.deployableVersions.find? (fun d => d.org_id == org_id && d.uuid == uuid) = some dv →
      (w.db.subscriptions.filter (fun s =>
        s.org_id == org_id && s.version_uuid == uuid)).length = 0 →
      w.db.channels.find? (fun c => c.uuid == dv.channel_id && c.org_id == org_id) = some ch →
      env.authOk "MANAGEVERSION" = true →
      ch.versions.find? (fun v => v.uuid == uuid) = some vo →
      vo.location = "s3" →
      env.s3DeleteOk (dvS3Key dv) = true →
      ((removeChannelVersionTry w conf env org_id uuid).states.getLastD w).s3 =
        w.s3.filter (fun o =>
          !(o.bucket == (s3PartsOfUrl dv.content).1 &&
            o.path == (s3PartsOfUrl dv.content).2))) := by
  refine ⟨?_, ?_, ?_, ?_, ?_⟩
  · intro w conf env org_id chU vU chN vN org ch vo dv horg hch hauth hvo hdv
    cases hr : readContentByLocation w (org.orgKeys.head?.getD "") vo.location dv with
    | error e =>
      simp [channelVersionTry, horg, hch, validAuth, hauth, hvo, hdv, hr, Except.map]
    | ok content =>
      simp [channelVersionTry, horg, hch, validAuth, hauth, hvo, hdv, hr, Except.map]
  · intro w conf conf2 env org_id chU vU chN vN
    rfl
  · intro w conf conf2 env org_id uuid
    rfl
  · intro w conf env org_id uuid dv ch vo hdv hsub hch hauth hvo hloc
    simp [removeChannelVersionTry, hdv, hsub, hch, validAuth, hauth, hvo, hloc]
  · intro w conf env org_id uuid dv ch vo hdv hsub hch hauth hvo hloc hdel
    have hdelete : deleteDeployableVersionFromS3 conf env w dv =
        .ok { w with s3 := w.s3.filter (fun o =>
          !(o.bucket == (s3PartsOfUrl dv.content).1 &&
            o.path == (s3PartsOfUrl dv.content).2)) } := by
      simp only [dvS3Key] at hdel
      simp [deleteDeployableVersionFromS3, s3DeleteObject, hdel]
    simp [removeChannelVersionTry, hdv, hsub, hch, validAuth, hauth, hvo, hloc, hdelete]

/-- Witness for C4 as amended: a mongo-tagged summary is read inline, and
the read is unchanged when the active configuration flips from the inline
backend to the object-store backend. -/
theorem c4_amended_witness :
    channelVersionTry (world0 [chan1 [sum1 "mongo"]] [dv1 "mongo" "X"] [] []) conf0 envAll
        "o1" (some "c1") (some "v1") none none =
      .ok { dv1 "mongo" "X" with content := decryptOrgData "k1" "X" } ∧
    channelVersionTry (world0 [chan1 [sum1 "mongo"]] [dv1 "mongo" "X"] [] []) confS3 envAll
        "o1" (some "c1") (some "v1") none none =
      channelVersionTry (world0 [chan1 [sum1 "mongo"]] [dv1 "mongo" "X"] [] []) conf0 envAll
        "o1" (some "c1") (some "v1") none none := by
  constructor
  · have h := c4_amended_theorem.1 (world0 [chan1 [sum1 "mongo"]] [dv1 "mongo" "X"] [] [])
      conf0 envAll "o1" (some "c1") (some "v1") none none org1 (chan1 [sum1 "mongo"])
      (sum1 "mongo") (dv1 "mongo" "X") (by decide) (by decide) (by decide) (by decide)
      (by decide)
    rw [h]
    rfl
  · exact c4_amended_theorem.2.1 (world0 [chan1 [sum1 "mongo"]] [dv1 "mongo" "X"] [] [])
      confS3 conf0 envAll "o1" (some "c1") (some "v1") none none

/-! ## Claim C1 -/

/-- Counterexample to claim C1 as stated: a successful removeChannelVersion
run, started from a dangling-free state, passes through an intermediate
state in which the channel summary still references the already-deleted
version record — the source deletes the record (line 471) BEFORE removing
the summary entry (lines 473-479), the reverse of the claimed order. -/
theorem c1_counterexample :
    danglingFreeB (world0 [chan1 [sum1 "mongo"]] [dv1 "mongo" "X"] [] []).db = true ∧
    (removeChannelVersionTry (world0 [chan1 [sum1 "mongo"]] [dv1 "mongo" "X"] [] [])
        conf0 envAll "o1" "v1").result = .ok "v1" ∧
    ((removeChannelVersionTry (world0 [chan1 [sum1 "mongo"]] [dv1 "mongo" "X"] [] [])
        conf0 envAll "o1" "v1").states.all (fun x => danglingFreeB x.db)) = false := by
  refine ⟨rfl, rfl, rfl⟩

/-- Claim C1 as amended: addChannelVersion writes the version record before
appending the summary, so every intermediate state of a create sequence
started from a dangling-free state is dangling-free (a crash leaves at worst
an orphaned record); but removeChannelVersion deletes the version record
BEFORE removing the summary entry, so every successful remove sequence
passes through an intermediate state whose summary references a missing
record — a crash there leaves a dangling channel reference. -/
theorem c1_amended_theorem :
    (∀ (w : World) (conf : Conf) (lim : Limits) (env : Env) (org_id : String)
        (chU n ty ct fl : Option String) (desc : String),
      danglingFreeB w.db = true →
      (addChannelVersion w conf lim env org_id chU n ty ct fl desc).states.all
        (fun x => danglingFreeB x.db) = true) ∧
    (∀ (w : World) (conf : Conf) (env : Env) (org_id uuid : String)
        (dv : DeployableVersion) (ch : Channel) (vo : VersionSummary),
      w.db.deployableVersions.find? (fun d => d.org_id == org_id && d.uuid == uuid) = some dv →
      (w.db.deployableVersions.filter (fun d =>
        d.org_id == org_id && d.uuid == uuid)).length ≤ 1 →
      (w.db.subscriptions.filter (fun s =>
        s.org_id == org_id && s.version_uuid == uuid)).length = 0 →
      w.db.channels.find? (fun c => c.uuid == dv.channel_id && c.org_id == org_id) = some ch →
      env.authOk "MANAGEVERSION" = true →
      ch.versions.find? (fun v => v.uuid == uuid) = some vo →
      (vo.location = "s3" → env.s3DeleteOk (dvS3Key dv) = true) →
      (removeChannelVersionTry w conf env org_id uuid).states.any
        (fun x => !hasRecordB x.db org_id uuid && summaryRefdB x.db org_id uuid) = true) := by
  constructor
  · intro w conf lim env org_id chU n ty ct fl desc h
    have hw : ([w].all (fun x => danglingFreeB x.db)) = true := by
      simp only [List.all_cons, List.all_nil, Bool.and_true]
      exact h
    unfold addChannelVersion
    cases horg : List.find? (fun o => o.idStr == org_id) w.db.organizations with
    | none => exact hw
    | some org =>
      dsimp only
      by_cases h1 : (!strTruthy n) = true
      · rw [if_pos h1]; exact hw
      rw [if_neg h1]
      by_cases h2 : typeInvalid ty = true
      · rw [if_pos h2]; exact hw
      rw [if_neg h2]
      by_cases h3 : (!strTruthy chU) = true
      · rw [if_pos h3]; exact hw
      rw [if_neg h3]
      by_cases h4 : (!fl.isSome && !strTruthy ct) = true
      · rw [if_pos h4]; exact hw
      rw [if_neg h4]
      cases hfc : List.find? (fun c => chU == some c.uuid && c.org_id == org_id) w.db.channels with
      | none => exact hw
      | some channel =>
      cases hau : validAuth env "MANAGEVERSION" with
      | error e => exact hw
      | ok u =>
      dsimp only
      by_cases h5 : ((List.filter (fun d => d.org_id == org_id && some d.channel_id == chU)
          w.db.deployableVersions).any fun version => some version.name == n) = true
      · rw [if_pos h5]; exact hw
      rw [if_neg h5]
      by_cases h6 : (List.filter (fun d => d.org_id == org_id && some d.channel_id == chU)
          w.db.deployableVersions).length ≥ lim.verMaxTotal
      · rw [if_pos h6]; exact hw
      rw [if_neg h6]
      by_cases h7 : (fl.getD (ct.getD "")).utf8ByteSize > lim.yamlMaxSizeMB * 1024 * 1024
      · rw [if_pos h7]; exact hw
      rw [if_neg h7]
      by_cases h8 : (!env.yamlOk (fl.getD (ct.getD ""))) = true
      · rw [if_pos h8]; exact hw
      rw [if_neg h8]
      cases hconf : conf.s3.endpoint with
      | none =>
        dsimp only
        simp only [List.all_cons, List.all_nil, Bool.and_true, Bool.and_eq_true]
        exact ⟨h, h, danglingFreeB_append_record _ h,
          danglingFreeB_push_summary _
            ⟨_, List.mem_append_right _ (List.mem_cons_self _ _), by simp⟩
            (danglingFreeB_append_record _ h)⟩
      | some ep =>
        dsimp only
        by_cases hep : ep.isEmpty = true
        · rw [if_pos hep]
          dsimp only
          simp only [List.all_cons, List.all_nil, Bool.and_true, Bool.and_eq_true]
          exact ⟨h, h, danglingFreeB_append_record _ h,
            danglingFreeB_push_summary _
              ⟨_, List.mem_append_right _ (List.mem_cons_self _ _), by simp⟩
              (danglingFreeB_append_record _ h)⟩
        · rw [if_neg hep]
          dsimp only
          simp only [List.all_cons, List.all_nil, Bool.and_true, Bool.and_eq_true]
          exact ⟨h, h, danglingFreeB_append_record _ h,
            danglingFreeB_push_summary _
              ⟨_, List.mem_append_right _ (List.mem_cons_self _ _), by simp⟩
              (danglingFreeB_append_record _ h)⟩
  · intro w conf env org_id uuid dv ch vo hdv huniq hsub hch hauth hvo hdel
    have hstep : ∃ wS3 : World,
        (if vo.location == "s3" then deleteDeployableVersionFromS3 conf env w dv
         else .ok w) = .ok wS3 ∧ wS3.db = w.db := by
      by_cases hloc : vo.location = "s3"
      · have hok := hdel hloc
        simp only [dvS3Key] at hok
        exact ⟨{ w with s3 := w.s3.filter (fun o =>
            !(o.bucket == (s3PartsOfUrl dv.content).1 &&
              o.path == (s3PartsOfUrl dv.content).2)) },
          by simp [hloc, deleteDeployableVersionFromS3, s3DeleteObject, hok], rfl⟩
      · have hloc2 : (vo.location == "s3") = false := beq_eq_false_iff_ne.mpr hloc
        exact ⟨w, by simp [hloc2], rfl⟩
    obtain ⟨wS3, hstep, hdb⟩ := hstep
    have hchmem := List.mem_of_find?_eq_some hch
    have hchp := List.find?_some hch
    have hvomem := List.mem_of_find?_eq_some hvo
    have hvop := List.find?_some hvo
    simp only [Bool.and_eq_true] at hchp
    have hva : validAuth env "MANAGEVERSION" = .ok () := by simp [validAuth, hauth]
    unfold removeChannelVersionTry
    rw [hdv]
    dsimp only
    rw [hsub, if_neg (Nat.lt_irrefl 0), hch]
    dsimp only
    rw [hva]
    dsimp only
    rw [hvo]
    dsimp only
    rw [hstep]
    dsimp only
    simp only [List.any_cons, List.any_nil, Bool.or_eq_true]
    refine Or.inr (Or.inr (Or.inl ?_))
    rw [Bool.and_eq_true]
    constructor
    · simp [hasRecordB, hdb, deleteFirst_any_eq_false huniq]
    · simp only [summaryRefdB, hdb, List.any_eq_true]
      exact ⟨ch, hchmem, by
        rw [Bool.and_eq_true]
        exact ⟨hchp.2, List.any_eq_true.mpr ⟨vo, hvomem, hvop⟩⟩⟩

/-- Witness for C1 as amended: a concrete create trace is dangling-free
throughout, and a concrete remove trace passes through the
record-deleted-summary-present state. -/
theorem c1_amended_witness :
    (addChannelVersion (world0 [chan1 []] [] [] []) conf0 ⟨10, 1⟩ envAll "o1" (some "c1")
        (some "ver9") (some "yaml") (some "a: 1") none "d").states.all
      (fun x => danglingFreeB x.db) = true ∧
    (removeChannelVersionTry (world0 [chan1 [sum1 "mongo"]] [dv1 "mongo" "X"] [] [])
        conf0 envAll "o1" "v1").states.any
      (fun x => !hasRecordB x.db "o1" "v1" && summaryRefdB x.db "o1" "v1") = true := by
  constructor
  · exact c1_amended_theorem.1 (world0 [chan1 []] [] [] []) conf0 ⟨10, 1⟩ envAll "o1"
      (some "c1") (some "ver9") (some "yaml") (some "a: 1") none "d" (by decide)
  · exact c1_amended_theorem.2 (world0 [chan1 [sum1 "mongo"]] [dv1 "mongo" "X"] [] [])
      conf0 envAll "o1" "v1" (dv1 "mongo" "X") (chan1 [sum1 "mongo"]) (sum1 "mongo")
      (by decide) (by decide) (by decide) (by decide) (by decide) (by decide)
      (by intro hloc; exact absurd hloc (by decide))

end Razee
